import Mathlib

/-!
Shallow embedding of `bin/report.py` from the wf-cas9 workflow report
generator.  Pandas data frames are modelled as lists of structures, the
float NaN that pandas produces (empty-series mean, zero-denominator
division) as `Option.none`, and numeric columns as `ℚ`.  A Python
function that can raise and abort the report is modelled as returning
`Option`.
-/

namespace Report

/-- A chunk of a natural-sort key: a run of digits parsed as a number
(`Sum.inl`) or a run of non-digit characters (`Sum.inr`).  In the
lexicographic sum order a digit chunk sorts before a letter chunk, and
digit chunks compare numerically, mirroring the default key of the
`natsort` package used at lines 13, 53 and 143 of `bin/report.py`. -/
abbrev NatChunk := Lex (ℕ ⊕ List Char)

/-- Extend a chunk list by one character: a digit extends a trailing
number chunk (base 10), any other character extends a trailing text
chunk; otherwise a fresh chunk is opened. -/
def pushChar (acc : List NatChunk) (c : Char) : List NatChunk :=
  if c.isDigit then
    match acc.getLast? with
    | some k =>
      match ofLex k with
      | Sum.inl v => acc.dropLast ++ [toLex (Sum.inl (v * 10 + (c.toNat - 48)))]
      | Sum.inr _ => acc ++ [toLex (Sum.inl (c.toNat - 48))]
    | none => acc ++ [toLex (Sum.inl (c.toNat - 48))]
  else
    match acc.getLast? with
    | some k =>
      match ofLex k with
      | Sum.inl _ => acc ++ [toLex (Sum.inr [c])]
      | Sum.inr s => acc.dropLast ++ [toLex (Sum.inr (s ++ [c]))]
    | none => acc ++ [toLex (Sum.inr [c])]

/-- The natural-sort key of a string, as produced by
`natsort.natsort_keygen()` / `natsorted`: alternating text and number
chunks, numbers compared numerically. -/
def natKey (s : String) : List NatChunk := s.data.foldl pushChar []

/-! ## `_plot_target_coverage` (lines 17–68)

Input columns (line 26): `chr, start, end, name_f, target, coverage_f,
name_r, coverage_r` (`end` is a Lean keyword, so the field is `stop`). -/

structure CovRow where
  chr : String
  start : ℕ
  stop : ℕ
  name_f : String
  target : String
  coverage_f : ℚ
  name_r : String
  coverage_r : ℚ
deriving DecidableEq

/-- The distinct `target` values in ascending string order:
`df.groupby('target')` (line 29) sorts the group keys. -/
def targetsOf (rows : List CovRow) : List String :=
  List.insertionSort (· ≤ ·) (rows.map CovRow.target).dedup

/-- The rows of one group, in original row order. -/
def groupFor (rows : List CovRow) (t : String) : List CovRow :=
  rows.filter (fun r => r.target = t)

/-- The groups yielded by iterating `df.groupby('target')`. -/
def groupsOf (rows : List CovRow) : List (String × List CovRow) :=
  (targetsOf rows).map (fun t => (t, groupFor rows t))

/-- `Series.max()`: NaN (`none`) on an empty series, else the maximum. -/
def seriesMax : List ℚ → Option ℚ
  | [] => none
  | x :: xs => some (xs.foldl max x)

/-- Lines 35–36: `ymax = max(df.coverage_f.max(), df.coverage_r.max())`,
then `ylim = [0, ymax * 1.05]`; this is the upper bound. -/
def groupYlimTop (g : List CovRow) : Option ℚ :=
  match seriesMax (g.map CovRow.coverage_f), seriesMax (g.map CovRow.coverage_r) with
  | some a, some b => some (max a b * (105 / 100))
  | _, _ => none

/-- The data of one per-target chart that the sorting and legend steps
look at: the group key (chart title, line 41), `chrom` and the first
`start` value stored at line 51, and the y-axis upper bound. -/
structure PlotRec where
  target : String
  chrom : String
  start0 : ℕ
  ylimTop : Option ℚ
deriving DecidableEq

/-- The chart built in the loop body (lines 33–51) for one group.  The
group of a yielded key is never empty, so the `head?` defaults never
fire. -/
def mkPlot (t : String) (g : List CovRow) : PlotRec :=
  { target := t
    chrom := ((g.head?).map CovRow.chr).getD ""
    start0 := ((g.head?).map CovRow.start).getD 0
    ylimTop := groupYlimTop g }

/-- The list `plots` after the loop, in group (target-name) order. -/
def plotsOf (rows : List CovRow) : List PlotRec :=
  (groupsOf rows).map (fun p => mkPlot p.1 p.2)

/-- The comparison used at line 53: `natsorted(plots, key=lambda x: x[0])`
keys on the chromosome string alone. -/
def plotLE (a b : PlotRec) : Prop := natKey a.chrom ≤ natKey b.chrom

instance : DecidableRel plotLE :=
  fun a b => inferInstanceAs (Decidable (natKey a.chrom ≤ natKey b.chrom))

instance : IsTotal PlotRec plotLE := ⟨fun a b => le_total (natKey a.chrom) (natKey b.chrom)⟩

instance : IsTrans PlotRec plotLE := ⟨fun _ _ _ h h2 => le_trans h h2⟩

/-- Line 53: the plots after the stable natural sort on chromosome
(Python `sorted`, hence `natsorted`, is stable; so is insertion sort). -/
def sortedPlots (rows : List CovRow) : List PlotRec :=
  List.insertionSort plotLE (plotsOf rows)

/-- Line 66: `cov = pd.DataFrame(df.coverage_f + df.coverage_r)`.  The
loop variable `df` of line 33 shadows the whole-table `df` of line 28, so
after the loop it still holds the rows of the LAST group; when there was
no group to iterate it is the (empty) input table. -/
def covReturned (rows : List CovRow) : List ℚ :=
  match (groupsOf rows).getLast? with
  | some p => p.2.map (fun r => r.coverage_f + r.coverage_r)
  | none => rows.map (fun r => r.coverage_f + r.coverage_r)

/-- Lines 31–68 of `_plot_target_coverage`: `sorted_plots[ncols - 1]`
with `ncols = 4` (line 55) raises `IndexError` when fewer than four plots
exist, aborting the report (`none`); otherwise the legend is attached and
the extracted coverage frame is returned alongside the sorted plots. -/
def plotTargetCoverage (rows : List CovRow) : Option (List PlotRec × List ℚ) :=
  let sp := sortedPlots rows
  if 4 ≤ sp.length then some (sp, covReturned rows) else none

/-! ## `make_coverage_summary_table` (lines 71–111) -/

/-- One row of the transposed summary frame: columns `num_reads` and
`kbases of sequence mapped` (lines 91–93). -/
structure CovSummaryRow where
  num_reads : ℚ
  kbases : ℚ
deriving DecidableEq

/-- The three labelled rows `on target`, `off target`, `all`. -/
structure CovSummary where
  onT : CovSummaryRow
  offT : CovSummaryRow
  allT : CovSummaryRow
deriving DecidableEq

/-- Lines 88–93: read the two-column contingency table (first file row =
read counts, second = mapped bases), add `all = on target + off target`
columnwise, transpose, and divide the base totals by 1000. -/
def mkCovSummaryRows (onReads offReads onBases offBases : ℚ) : CovSummary :=
  { onT := ⟨onReads, onBases / 1000⟩
    offT := ⟨offReads, offBases / 1000⟩
    allT := ⟨onReads + offReads, (onBases + offBases) / 1000⟩ }

/-- One row of the on/off-target bed (line 97): `chr, start, end,
read_id, target`; a missing target (NaN in pandas) is `none`. -/
structure OnOffRow where
  chr : String
  start : ℕ
  stop : ℕ
  read_id : String
  target : Option String
deriving DecidableEq

/-- One row of the fastcat per-read statistics used by the merge. -/
structure StatRow where
  read_id : String
  read_length : ℚ
deriving DecidableEq

/-- Line 100: `df_onoff['target'].fillna('OFF', inplace=True)`. -/
def fillOff (r : OnOffRow) : String := r.target.getD "OFF"

/-- Lines 101–102: the default (inner) `merge` on `read_id`, preserving
the order of the left keys; each on/off record is paired with every
matching `read_length`, and records with no match disappear. -/
def mergeStats (onoff : List OnOffRow) (stats : List StatRow) :
    List (String × ℚ) :=
  onoff.flatMap (fun r =>
    (stats.filter (fun s => s.read_id = r.read_id)).map
      (fun s => (fillOff r, s.read_length)))

/-- `Series.mean()`: NaN (`none`) on an empty series. -/
def meanOpt (l : List ℚ) : Option ℚ :=
  if l.isEmpty then none else some (l.sum / l.length)

/-- The merged read lengths with `target != 'OFF'` (line 104). -/
def onLengths (m : List (String × ℚ)) : List ℚ :=
  (m.filter (fun x => x.1 ≠ "OFF")).map Prod.snd

/-- The merged read lengths with `target == 'OFF'` (line 105). -/
def offLengths (m : List (String × ℚ)) : List ℚ :=
  (m.filter (fun x => x.1 = "OFF")).map Prod.snd

/-- Lines 104–106: the three mean read lengths (on, off, combined). -/
def meanReadLens (onoff : List OnOffRow) (stats : List StatRow) :
    Option ℚ × Option ℚ × Option ℚ :=
  let m := mergeStats onoff stats
  (meanOpt (onLengths m), meanOpt (offLengths m), meanOpt (m.map Prod.snd))

/-- `astype('int')` on a finite float truncates toward zero. -/
def truncQ (q : ℚ) : ℤ := if 0 ≤ q then ⌊q⌋ else ⌈q⌉

/-- One rendered row of the final integer-cast summary table. -/
structure IntSummaryRow where
  num_reads : ℤ
  kbases : ℤ
  mean_read_length : ℤ
deriving DecidableEq

/-- Lines 71–111, `make_coverage_summary_table`: build the contingency
rows, attach the three mean read lengths, and cast to `int` (line 109).
`astype('int')` raises `ValueError` on a non-finite value, so a NaN mean
(any empty population) aborts the run: `none`. -/
def make_coverage_summary_table (onReads offReads onBases offBases : ℚ)
    (onoff : List OnOffRow) (stats : List StatRow) :
    Option (IntSummaryRow × IntSummaryRow × IntSummaryRow) :=
  let t := mkCovSummaryRows onReads offReads onBases offBases
  match meanReadLens onoff stats with
  | (some a, some b, some c) =>
    some (⟨truncQ t.onT.num_reads, truncQ t.onT.kbases, truncQ a⟩,
          ⟨truncQ t.offT.num_reads, truncQ t.offT.kbases, truncQ b⟩,
          ⟨truncQ t.allT.num_reads, truncQ t.allT.kbases, truncQ c⟩)
  | _ => none

/-! ## `_make_target_summary_table` (lines 114–146) -/

/-- One parsed row of the target summary (header at lines 134–136; `end`
is a Lean keyword, so the field is `stop`). -/
structure TargetRow where
  chr : String
  start : ℕ
  stop : ℕ
  target : String
  reads : ℚ
  basesCov : ℚ
  targetLen : ℚ
  fracTargAln : ℚ
  meanReadLen : ℚ
  kbases : ℚ
  medianCov : ℚ
  p : ℚ
  n : ℚ
deriving DecidableEq

/-- Line 139: `(df.p - df.n) / (df.p + df.n)`.  A zero denominator makes
pandas produce NaN/inf instead of raising: `none`. -/
def strandBias (p n : ℚ) : Option ℚ :=
  if p + n = 0 then none else some ((p - n) / (p + n))

/-- A row after line 140 dropped the `p` and `n` columns. -/
structure SummaryRow where
  chr : String
  start : ℕ
  stop : ℕ
  target : String
  reads : ℚ
  basesCov : ℚ
  targetLen : ℚ
  fracTargAln : ℚ
  meanReadLen : ℚ
  kbases : ℚ
  medianCov : ℚ
  strandBias : Option ℚ
deriving DecidableEq

/-- Lines 138–140: add the derived `strandBias` column and drop `p`, `n`. -/
def summaryRowOf (r : TargetRow) : SummaryRow :=
  { chr := r.chr, start := r.start, stop := r.stop, target := r.target
    reads := r.reads, basesCov := r.basesCov, targetLen := r.targetLen
    fracTargAln := r.fracTargAln, meanReadLen := r.meanReadLen
    kbases := r.kbases, medianCov := r.medianCov
    strandBias := strandBias r.p r.n }

/-- The sort key of lines 141–145: `sort_values(by=["chr", "start"],
key=natsort_keygen())` applies the natural key columnwise, so rows
compare lexicographically by (natural key of `chr`, `start`). -/
def sKey (r : SummaryRow) : Lex (List NatChunk × ℕ) := toLex (natKey r.chr, r.start)

/-- Row comparison induced by `sKey`. -/
def sumLE (a b : SummaryRow) : Prop := sKey a ≤ sKey b

instance : DecidableRel sumLE :=
  fun a b => inferInstanceAs (Decidable (sKey a ≤ sKey b))

instance : IsTotal SummaryRow sumLE := ⟨fun a b => le_total (sKey a) (sKey b)⟩

instance : IsTrans SummaryRow sumLE := ⟨fun _ _ _ h h2 => le_trans h h2⟩

/-- Lines 114–146, `_make_target_summary_table` (leading underscore
dropped): derive `strandBias` rowwise, then sort by the natural
(chr, start) key. -/
def make_target_summary_table (tbl : List TargetRow) : List SummaryRow :=
  List.insertionSort sumLE (tbl.map summaryRowOf)

/-! ## Auxiliary definitions for the statements -/

/-- The spec's reading of the bound at line 35: the maximum over a
target's bins of the larger of forward and reverse coverage (compared
with `groupYlimTop`, which is translated from the source). -/
def binsPairMax : List CovRow → Option ℚ
  | [] => none
  | x :: xs =>
    some (xs.foldl (fun m y => max m (max y.coverage_f y.coverage_r))
      (max x.coverage_f x.coverage_r))

/-- The four-target input witnessing the shadowed `df` at line 66: one
100-bp bin per target, forward+reverse sums 2, 4, 6 and 10. -/
def covRowsC1 : List CovRow :=
  [⟨"chr1", 0, 100, "nf", "a", 1, "nr", 1⟩,
   ⟨"chr1", 100, 200, "nf", "b", 2, "nr", 2⟩,
   ⟨"chr2", 0, 100, "nf", "c", 3, "nr", 3⟩,
   ⟨"chr2", 100, 200, "nf", "d", 5, "nr", 5⟩]

/-! ## Theorems -/

/-- Taking the maximum of two series maxima is the same as folding the
pointwise maximum of the two columns. -/
theorem foldl_max_pair (l : List CovRow) :
    ∀ a b : ℚ,
      max (l.foldl (fun m y => max m y.coverage_f) a)
          (l.foldl (fun m y => max m y.coverage_r) b)
        = l.foldl (fun m y => max m (max y.coverage_f y.coverage_r)) (max a b) := by
  induction l with
  | nil => intro a b; rfl
  | cons x xs ih =>
    intro a b
    simp only [List.foldl_cons]
    rw [ih]
    congr 1
    exact max_max_max_comm a x.coverage_f b x.coverage_r

/-- C3: for every target-summary row with nonnegative strand counts
`p`, `n` and `p + n > 0`, the derived `strandBias` value equals
`(p - n) / (p + n)` and lies in the closed interval `[-1, 1]`. -/
theorem strandBias_unit_interval (r : TargetRow)
    (hp : 0 ≤ r.p) (hn : 0 ≤ r.n) (hpos : 0 < r.p + r.n) :
    (summaryRowOf r).strandBias = some ((r.p - r.n) / (r.p + r.n)) ∧
    ∀ v, (summaryRowOf r).strandBias = some v → -1 ≤ v ∧ v ≤ 1 := by
  have hne : r.p + r.n ≠ 0 := ne_of_gt hpos
  have heq : (summaryRowOf r).strandBias = some ((r.p - r.n) / (r.p + r.n)) := by
    simp [summaryRowOf, strandBias, hne]
  refine ⟨heq, fun v hv => ?_⟩
  rw [heq] at hv
  obtain rfl := (Option.some.inj hv).symm
  constructor
  · rw [le_div_iff₀ hpos]; linarith
  · rw [div_le_one hpos]; linarith

/-- Witness for C3 at the concrete row `p = 3`, `n = 1`. -/
theorem strandBias_unit_interval_w :
    (summaryRowOf ⟨"chr1", 0, 100, "t1", 5, 50, 100, 1, 10, 1, 2, 3, 1⟩).strandBias
        = some (((3 : ℚ) - 1) / (3 + 1)) ∧
    ∀ v, (summaryRowOf ⟨"chr1", 0, 100, "t1", 5, 50, 100, 1, 10, 1, 2, 3, 1⟩).strandBias
        = some v → -1 ≤ v ∧ v ≤ 1 :=
  strandBias_unit_interval ⟨"chr1", 0, 100, "t1", 5, 50, 100, 1, 10, 1, 2, 3, 1⟩
    (by norm_num) (by norm_num) (by norm_num)

/-- C4: a target-summary row whose strand counts are both zero gets a
NaN (`none`) strand bias with no guard, and the table builder keeps the
row: it appears in the rendered table and no row is dropped. -/
theorem strandBias_zero_zero_passthrough (tbl : List TargetRow) (r : TargetRow)
    (hr : r ∈ tbl) (hp : r.p = 0) (hn : r.n = 0) :
    (summaryRowOf r).strandBias = none ∧
    summaryRowOf r ∈ make_target_summary_table tbl ∧
    (make_target_summary_table tbl).length = tbl.length := by
  refine ⟨by simp [summaryRowOf, strandBias, hp, hn], ?_, ?_⟩
  · exact (List.mem_insertionSort sumLE).mpr (List.mem_map_of_mem summaryRowOf hr)
  · simp [make_target_summary_table]

/-- Witness for C4 at a one-row table with `p = n = 0`. -/
theorem strandBias_zero_zero_passthrough_w :
    (summaryRowOf ⟨"chr1", 0, 100, "t1", 0, 0, 100, 0, 0, 0, 0, 0, 0⟩).strandBias = none ∧
    summaryRowOf ⟨"chr1", 0, 100, "t1", 0, 0, 100, 0, 0, 0, 0, 0, 0⟩
        ∈ make_target_summary_table [⟨"chr1", 0, 100, "t1", 0, 0, 100, 0, 0, 0, 0, 0, 0⟩] ∧
    (make_target_summary_table [⟨"chr1", 0, 100, "t1", 0, 0, 100, 0, 0, 0, 0, 0, 0⟩]).length
        = [(⟨"chr1", 0, 100, "t1", 0, 0, 100, 0, 0, 0, 0, 0, 0⟩ : TargetRow)].length :=
  strandBias_zero_zero_passthrough _ _ (List.mem_singleton_self _) rfl rfl

/-- C5: in the coverage summary the derived `all` row is the sum of the
`on target` and `off target` rows for both columns, the kilobase column
is the base total divided by 1000, and the spec's concrete instance
(on = 100 reads / 50000 bases, off = 20 reads / 5000 bases) yields
kilobases 50 and 5 and `all` = 120 reads / 55 kilobases. -/
theorem coverage_summary_all_row_sum (onReads offReads onBases offBases : ℚ) :
    (mkCovSummaryRows onReads offReads onBases offBases).allT.num_reads
        = (mkCovSummaryRows onReads offReads onBases offBases).onT.num_reads
          + (mkCovSummaryRows onReads offReads onBases offBases).offT.num_reads ∧
    (mkCovSummaryRows onReads offReads onBases offBases).allT.kbases
        = (mkCovSummaryRows onReads offReads onBases offBases).onT.kbases
          + (mkCovSummaryRows onReads offReads onBases offBases).offT.kbases ∧
    (mkCovSummaryRows onReads offReads onBases offBases).onT.kbases = onBases / 1000 ∧
    (mkCovSummaryRows onReads offReads onBases offBases).offT.kbases = offBases / 1000 ∧
    mkCovSummaryRows 100 20 50000 5000 = ⟨⟨100, 50⟩, ⟨20, 5⟩, ⟨120, 55⟩⟩ := by
  refine ⟨rfl, ?_, rfl, rfl, by norm_num [mkCovSummaryRows]⟩
  show (onBases + offBases) / 1000 = onBases / 1000 + offBases / 1000
  ring

/-- C6: the rendered target-summary rows are sorted by the natural
(chromosome, start) key, the output is a permutation of the derived
rows, and the natural order puts "chr2" before "chr10". -/
theorem target_summary_natural_sorted (tbl : List TargetRow) :
    List.Sorted sumLE (make_target_summary_table tbl) ∧
    (make_target_summary_table tbl).Perm (tbl.map summaryRowOf) ∧
    natKey "chr2" < natKey "chr10" :=
  ⟨List.sorted_insertionSort sumLE _, List.perm_insertionSort sumLE _, by decide⟩

/-- C2 counterexample: two targets on the same chromosome, target "a" at
start 5000 and target "b" at start 100.  The chart for the naturally
smaller (chromosome, start) pair — ("chr1", 100) — appears LATER in the
sorted plot list, because line 53 keys the sort on the chromosome alone
and the tie keeps the groupby (target-name) order. -/
theorem sortedPlots_pair_order_cex :
    (sortedPlots [⟨"chr1", 5000, 5100, "nf", "a", 1, "nr", 1⟩,
                  ⟨"chr1", 100, 200, "nf", "b", 2, "nr", 2⟩]).map
        (fun p => (p.chrom, p.start0)) = [("chr1", 5000), ("chr1", 100)] ∧
    toLex ((natKey "chr1", 100) : List NatChunk × ℕ)
        < toLex ((natKey "chr1", 5000) : List NatChunk × ℕ) := by
  constructor
  · simp +decide [sortedPlots, plotsOf, groupsOf, targetsOf, groupFor,
      List.insertionSort, List.orderedInsert, List.dedup, List.pwFilter,
      mkPlot, plotLE]
  · decide

/-- C2 (amended): the per-target charts are ordered by the natural sort
of the chromosome string alone (not of the (chromosome, start) pair):
the sorted plot list is a permutation of the per-group plots that is
sorted under the natural chromosome order. -/
theorem sortedPlots_sorted_by_chrom (rows : List CovRow) :
    List.Sorted plotLE (sortedPlots rows) ∧
    (sortedPlots rows).Perm (plotsOf rows) :=
  ⟨List.sorted_insertionSort plotLE _, List.perm_insertionSort plotLE _⟩

/-- C9: attaching the shared legend indexes `sorted_plots[3]`, so the
target-coverage plotter survives exactly when the input has at least
four distinct targets; with fewer it aborts with `IndexError`. -/
theorem legend_needs_four_targets (rows : List CovRow) :
    (plotTargetCoverage rows).isSome ↔ 4 ≤ (targetsOf rows).length := by
  have hlen : (sortedPlots rows).length = (targetsOf rows).length := by
    simp [sortedPlots, plotsOf, groupsOf]
  simp only [plotTargetCoverage]
  by_cases h4 : 4 ≤ (sortedPlots rows).length
  · simp [h4, ← hlen]
  · simp [h4, ← hlen]

/-- C1 (code bug): on a four-target input the coverage frame returned at
line 66 holds only the summed coverage of the LAST group (target "d",
sum 10), not the series over all bins of all targets (2, 4, 6, 10),
because the loop variable `df` shadows the full table; this short frame
is what the plotter hands back for the background overlay. -/
theorem covReturned_last_group_only :
    covReturned covRowsC1 = [10] ∧
    covRowsC1.map (fun r => r.coverage_f + r.coverage_r) = [2, 4, 6, 10] ∧
    plotTargetCoverage covRowsC1 = some (sortedPlots covRowsC1, [10]) ∧
    ([10] : List ℚ) ≠ [2, 4, 6, 10] := by
  refine ⟨?_, by norm_num [covRowsC1], ?_, by simp⟩
  · simp +decide [covReturned, groupsOf, targetsOf, groupFor, covRowsC1,
      List.insertionSort, List.orderedInsert, List.dedup, List.pwFilter]
    norm_num
  · simp +decide [plotTargetCoverage, sortedPlots, plotsOf, groupsOf, targetsOf,
      groupFor, covRowsC1, List.insertionSort, List.orderedInsert, List.dedup,
      List.pwFilter, mkPlot, plotLE, covReturned]
    norm_num

/-- C7: the mean read lengths are computed after an inner join with the
read-statistics table, so appending an on/off record whose `read_id` has
no length correlate changes neither the joined table nor any of the
three means. -/
theorem mean_read_length_inner_join (onoff : List OnOffRow) (stats : List StatRow)
    (r : OnOffRow) (h : ∀ s ∈ stats, s.read_id ≠ r.read_id) :
    mergeStats (onoff ++ [r]) stats = mergeStats onoff stats ∧
    meanReadLens (onoff ++ [r]) stats = meanReadLens onoff stats := by
  have hnil : stats.filter (fun s => s.read_id = r.read_id) = [] := by
    simp only [List.filter_eq_nil_iff, decide_eq_true_eq]
    exact fun s hs => h s hs
  have hm : mergeStats (onoff ++ [r]) stats = mergeStats onoff stats := by
    simp [mergeStats, hnil]
  exact ⟨hm, by simp [meanReadLens, hm]⟩

/-- Witness for C7: the record with `read_id` "z" has no correlate in a
statistics table holding only "y". -/
theorem mean_read_length_inner_join_w :
    mergeStats ([⟨"chr1", 0, 10, "x", some "t"⟩] ++ [⟨"chr1", 5, 15, "z", none⟩])
        [⟨"y", 7⟩]
      = mergeStats [⟨"chr1", 0, 10, "x", some "t"⟩] [⟨"y", 7⟩] ∧
    meanReadLens ([⟨"chr1", 0, 10, "x", some "t"⟩] ++ [⟨"chr1", 5, 15, "z", none⟩])
        [⟨"y", 7⟩]
      = meanReadLens [⟨"chr1", 0, 10, "x", some "t"⟩] [⟨"y", 7⟩] :=
  mean_read_length_inner_join _ _ _ (by decide)

/-- C8: for every nonempty target group the chart's y-axis upper bound
is the maximum over the group's bins of forward and reverse coverage
times 1.05, and on the spec's instance (forward 2, 4, 6; reverse
1, 3, 5) it is 6 × 1.05 = 6.3. -/
theorem group_ylim_margin (g : List CovRow) (hg : g ≠ []) :
    groupYlimTop g = (binsPairMax g).map (fun m => m * (105 / 100)) ∧
    groupYlimTop [⟨"chr1", 0, 100, "nf", "t", 2, "nr", 1⟩,
                  ⟨"chr1", 100, 200, "nf", "t", 4, "nr", 3⟩,
                  ⟨"chr1", 200, 300, "nf", "t", 6, "nr", 5⟩] = some (63 / 10) := by
  refine ⟨?_, by norm_num [groupYlimTop, seriesMax]⟩
  match g, hg with
  | x :: xs, _ =>
    simp only [groupYlimTop, binsPairMax, seriesMax, List.map_cons]
    rw [List.foldl_map, List.foldl_map, foldl_max_pair]
    rfl

/-- Witness for C8 at the three-bin group of the spec's instance. -/
theorem group_ylim_margin_w :
    groupYlimTop [⟨"chr1", 0, 100, "nf", "t", 2, "nr", 1⟩,
                  ⟨"chr1", 100, 200, "nf", "t", 4, "nr", 3⟩,
                  ⟨"chr1", 200, 300, "nf", "t", 6, "nr", 5⟩]
      = (binsPairMax [⟨"chr1", 0, 100, "nf", "t", 2, "nr", 1⟩,
                      ⟨"chr1", 100, 200, "nf", "t", 4, "nr", 3⟩,
                      ⟨"chr1", 200, 300, "nf", "t", 6, "nr", 5⟩]).map
          (fun m => m * (105 / 100)) :=
  (group_ylim_margin _ (by simp)).1

/-- C10: when the on-target, off-target or combined population of the
joined table is empty, the corresponding mean is NaN (`none`) and the
coverage-summary builder aborts at the integer cast (`none` result). -/
theorem coverage_summary_empty_population_aborts
    (onReads offReads onBases offBases : ℚ)
    (onoff : List OnOffRow) (stats : List StatRow)
    (h : onLengths (mergeStats onoff stats) = []
       ∨ offLengths (mergeStats onoff stats) = []
       ∨ (mergeStats onoff stats).map Prod.snd = []) :
    ((meanReadLens onoff stats).1 = none ∨ (meanReadLens onoff stats).2.1 = none
      ∨ (meanReadLens onoff stats).2.2 = none) ∧
    make_coverage_summary_table onReads offReads onBases offBases onoff stats = none := by
  constructor
  · rcases h with h | h | h
    · exact Or.inl (by simp [meanReadLens, h, meanOpt])
    · exact Or.inr (Or.inl (by simp [meanReadLens, h, meanOpt]))
    · exact Or.inr (Or.inr (by simp [meanReadLens, h, meanOpt]))
  · rcases h with h | h | h <;>
      cases hon : meanOpt (onLengths (mergeStats onoff stats)) <;>
      cases hoff : meanOpt (offLengths (mergeStats onoff stats)) <;>
      cases hall : meanOpt ((mergeStats onoff stats).map Prod.snd) <;>
      simp_all [make_coverage_summary_table, meanReadLens, meanOpt]

/-- Witness for C10: with no on/off records at all, every population is
empty and the builder aborts. -/
theorem coverage_summary_empty_population_aborts_w :
    ((meanReadLens [] []).1 = none ∨ (meanReadLens [] []).2.1 = none
      ∨ (meanReadLens [] []).2.2 = none) ∧
    make_coverage_summary_table 0 0 0 0 [] [] = none :=
  coverage_summary_empty_population_aborts 0 0 0 0 [] [] (Or.inl rfl)

end Report
